import Mathlib

set_option maxHeartbeats 1000000

/-!
Verification development for the pull-diagnostics synchronization engine of
src/helix-term/src/handlers/diagnostics.rs. The engine itself (hooks, the
debounce handler, pull_diagnostics_for_document, the spawned request task and
handle_pull_diagnostics_response) is translated directly from that file.
Collaborator state and operations that live in other crates of the repository
(helix-view, helix-lsp, helix-event) are modelled from the specification and
carry a doc comment saying so.
-/

namespace HelixPullDiagnostics

abbrev ServerId := Nat

abbrev DocumentId := Nat

abbrev Uri := String

/-- Modelled from the spec: a protocol diagnostic item (lsp::Diagnostic, an
external protocol shape); the engine treats items as opaque values. -/
structure Diagnostic where
  message : String
deriving DecidableEq

/-- Modelled from the spec: helix-core DiagnosticProvider (not under src/) —
the server id plus its optional identifier string, used as the namespacing key
for merged diagnostics. -/
inductive DiagnosticProvider where
  | Lsp (server_id : ServerId) (identifier : Option String)
deriving DecidableEq

/-- Modelled from the spec: lsp FullDocumentDiagnosticReport — the item list
plus an optional new version token. -/
structure FullDocumentDiagnosticReport where
  result_id : Option String
  items : List Diagnostic
deriving DecidableEq

/-- Modelled from the spec: the wrapper around a full report used by the
protocol result type. -/
structure RelatedFullDocumentDiagnosticReport where
  full_document_diagnostic_report : FullDocumentDiagnosticReport
deriving DecidableEq

/-- Modelled from the spec: lsp UnchangedDocumentDiagnosticReport — a mandatory
version token and nothing else. -/
structure UnchangedDocumentDiagnosticReport where
  result_id : String
deriving DecidableEq

/-- Modelled from the spec: the wrapper around an unchanged report used by the
protocol result type. -/
structure RelatedUnchangedDocumentDiagnosticReport where
  unchanged_document_diagnostic_report : UnchangedDocumentDiagnosticReport
deriving DecidableEq

/-- Modelled from the spec: lsp DocumentDiagnosticReport — either a full or an
unchanged report. -/
inductive DocumentDiagnosticReport where
  | Full (report : RelatedFullDocumentDiagnosticReport)
  | Unchanged (report : RelatedUnchangedDocumentDiagnosticReport)
deriving DecidableEq

/-- Modelled from the spec: the payload of a multi-part streaming report; the
engine never reads it. -/
structure DocumentDiagnosticReportPartialResult where
  related_documents : List Uri
deriving DecidableEq

/-- Modelled from the spec: lsp DocumentDiagnosticReportResult — the top level
report-result wrapper. -/
inductive DocumentDiagnosticReportResult where
  | Report (report : DocumentDiagnosticReport)
  | Partial (result : DocumentDiagnosticReportPartialResult)
deriving DecidableEq

/-- Modelled from the spec: lsp DiagnosticServerCapabilities — either a flat
options object or a registration-options object, both exposing an optional
provider identifier. -/
inductive DiagnosticServerCapabilities where
  | Options (identifier : Option String)
  | RegistrationOptions (identifier : Option String)
deriving DecidableEq

/-- Modelled from the spec: lsp DiagnosticServerCancellationData — the
structured cancellation payload with its retrigger flag. -/
structure DiagnosticServerCancellationData where
  retrigger_request : Bool
deriving DecidableEq

/-- Modelled from the spec: the json value carried in the data field of a
structured rpc error; deserializing it either yields cancellation data or
fails. -/
inductive JsonData where
  | cancellation (d : DiagnosticServerCancellationData)
  | other
deriving DecidableEq

/-- Modelled from the spec: serde_json deserialization of
DiagnosticServerCancellationData, with failure collapsed to none. -/
def parse_cancellation : JsonData → Option DiagnosticServerCancellationData
  | .cancellation d => some d
  | .other => none

/-- Modelled from the spec: helix-lsp Error — a structured rpc error carrying
an optional data payload, or any other transport error. -/
inductive LspError where
  | Rpc (data : Option JsonData)
  | Other
deriving DecidableEq

/-- Whether a failure carries cancellation data whose retrigger flag is set;
this is the condition the error branch of the spawned task tests. -/
def LspError.retrigger_requested : LspError → Bool
  | .Rpc data =>
      ((data.bind parse_cancellation).map DiagnosticServerCancellationData.retrigger_request).getD false
  | .Other => false

/-- Modelled from the spec: the helix-lsp Client handle (not under src/) —
capability metadata and the initialization flag are all the engine reads. -/
structure Client where
  id : ServerId
  diagnostic_provider : Option DiagnosticServerCapabilities
  initialized : Bool
deriving DecidableEq

/-- Modelled from the spec: Client::supports_feature for pull diagnostics — the
server supports the feature exactly when it declares a diagnostic provider
capability. -/
def Client.supports_pull_diagnostics (ls : Client) : Bool :=
  ls.diagnostic_provider.isSome

/-- Modelled from the spec: helix-lsp Client::text_document_diagnostic (not
under src/) — yields a request future, carrying the captured previous version
token, exactly when the server declares the pull-diagnostics capability;
otherwise the server offers no request object. -/
def text_document_diagnostic (ls : Client) (previous_result_id : Option String) :
    Option (Option String) :=
  if ls.diagnostic_provider.isSome then some previous_result_id else none

/-- Modelled from the spec: helix-view Document (not under src/) — the stable
id, the optional uri, the cached diagnostic version token and the ids of the
attached language servers. -/
structure Document where
  id : DocumentId
  uri : Option Uri
  previous_diagnostic_id : Option String
  language_servers : List ServerId
deriving DecidableEq

/-- Modelled from the spec: Document::supports_language_server — whether the
server id is among the attached servers of the document. -/
def Document.supports_language_server (doc : Document) (server_id : ServerId) : Bool :=
  doc.language_servers.contains server_id

/-- The editor interaction modes; Insert is the edit-heavy mode. -/
inductive Mode where
  | Normal
  | Select
  | Insert
deriving DecidableEq

/-- Modelled from the spec: the event sent to the per-view diagnostics handler
to refresh its visible rendering. -/
inductive DiagnosticEvent where
  | Refresh
deriving DecidableEq

/-- Modelled from the spec: a view with its diagnostics handler state — the
queue of events sent to it and the active flag. -/
structure View where
  events : List DiagnosticEvent
  active : Bool
deriving DecidableEq

/-- Modelled from the spec: the editor state mutated by the dispatched
closures — open documents, registered servers, the uri-keyed diagnostic
storage, the views and the interaction mode. -/
structure Editor where
  mode : Mode
  documents : List Document
  language_servers : List Client
  diagnostics : List (Uri × DiagnosticProvider × List Diagnostic)
  views : List View
deriving DecidableEq

/-- Modelled from the spec: Editor::document — look up an open document by id. -/
def Editor.document (editor : Editor) (document_id : DocumentId) : Option Document :=
  editor.documents.find? (fun doc => doc.id == document_id)

/-- Modelled from the spec: Editor::language_server_by_id — look up a
registered server by id. -/
def Editor.language_server_by_id (editor : Editor) (server_id : ServerId) : Option Client :=
  editor.language_servers.find? (fun ls => ls.id == server_id)

/-- Modelled from the spec: Document::language_servers_with_feature for pull
diagnostics — the attached servers, resolved in the editor, that support the
feature. -/
def Editor.language_servers_with_feature (editor : Editor) (doc : Document) : List Client :=
  (doc.language_servers.filterMap editor.language_server_by_id).filter
    Client.supports_pull_diagnostics

/-- Modelled from the spec: Document::has_language_server_with_feature. -/
def Editor.has_language_server_with_feature (editor : Editor) (doc : Document) : Bool :=
  !(editor.language_servers_with_feature doc).isEmpty

/-- Modelled from the spec: Editor::handle_lsp_diagnostics (helix-view, not
under src/) — replace the diagnostics stored for the (uri, provider) key with
the given item list, leaving every other key alone. -/
def Editor.handle_lsp_diagnostics (editor : Editor) (provider : DiagnosticProvider)
    (uri : Uri) (items : List Diagnostic) : Editor :=
  { editor with
    diagnostics :=
      (uri, provider, items) ::
        editor.diagnostics.filter (fun entry => !(entry.1 == uri && entry.2.1 == provider)) }

/-- Update the first element satisfying the predicate, leaving the rest of the
list alone. -/
def updateFirst (p : α → Bool) (f : α → α) : List α → List α
  | [] => []
  | a :: rest => if p a then f a :: rest else a :: updateFirst p f rest

/-- Modelled from the spec: writing the cached version token through
Editor::document_mut — update the first document with the given id. -/
def Editor.set_previous_diagnostic_id (editor : Editor) (document_id : DocumentId)
    (result_id : Option String) : Editor :=
  { editor with
    documents :=
      updateFirst (fun doc => doc.id == document_id)
        (fun doc => { doc with previous_diagnostic_id := result_id }) editor.documents }

/-- Read the stored diagnostics for a (uri, provider) key of the uri-keyed
storage. -/
def Editor.diagnosticsFor (editor : Editor) (uri : Uri) (provider : DiagnosticProvider) :
    Option (List Diagnostic) :=
  (editor.diagnostics.find? (fun entry => entry.1 == uri && entry.2.1 == provider)).map
    (fun entry => entry.2.2)

/-- The values pull_diagnostics_for_document captures for the spawned task: the
version token sent with the request, the uri, the provider, and the document
and server ids. -/
structure PullRequest where
  previous_diagnostic_id : Option String
  uri : Uri
  provider : DiagnosticProvider
  document_id : DocumentId
  server_id : ServerId
deriving DecidableEq

/-- Embedding of pull_diagnostics_for_document (src lines 117-147), the
synchronous part: some req means a request future was obtained and the async
task spawned with these captured values; none covers the two silent early
returns (no request object, no uri). -/
def pull_diagnostics_for_document (doc : Document) (language_server : Client) :
    Option PullRequest :=
  match text_document_diagnostic language_server doc.previous_diagnostic_id with
  | none => none
  | some future =>
    match doc.uri with
    | none => none
    | some uri =>
      let identifier :=
        match language_server.diagnostic_provider with
        | none => none
        | some (DiagnosticServerCapabilities.Options options_identifier) => options_identifier
        | some (DiagnosticServerCapabilities.RegistrationOptions options_identifier) =>
            options_identifier
      some { previous_diagnostic_id := future
             uri := uri
             provider := DiagnosticProvider.Lsp language_server.id identifier
             document_id := doc.id
             server_id := language_server.id }

/-- Embedding of handle_pull_diagnostics_response (src lines 195-226). -/
def handle_pull_diagnostics_response (editor : Editor)
    (result : DocumentDiagnosticReportResult) (provider : DiagnosticProvider)
    (uri : Uri) (document_id : DocumentId) : Editor :=
  match result with
  | .Report report =>
    let step :=
      match report with
      | .Full report =>
        (editor.handle_lsp_diagnostics provider uri
           report.full_document_diagnostic_report.items,
         report.full_document_diagnostic_report.result_id)
      | .Unchanged report =>
        (editor, some report.unchanged_document_diagnostic_report.result_id)
    if (step.1.document document_id).isSome then
      step.1.set_previous_diagnostic_id document_id step.2
    else
      step.1
  | .Partial _ => editor

/-- The two ways the awaited request future can resolve. -/
inductive RequestOutcome where
  | Ok (result : DocumentDiagnosticReportResult)
  | Err (e : LspError)
deriving DecidableEq

/-- The observable effects of one spawned request task: how many
mark-work-as-done calls were made for the request token, whether an error was
logged, the editor state after the dispatched closure ran, how long the retry
path slept before its dispatch, whether the retry closure invoked
pull_diagnostics_for_document again, and the request that recursive call
obtained, if any. -/
structure TaskEffects where
  marks : Nat
  logged : Bool
  editor : Editor
  retry_delay_ms : Option Nat
  repull_invoked : Bool
  repull_request : Option PullRequest
deriving DecidableEq

/-- Embedding of the retry dispatch closure (src lines 176-186): mark the token
done and re-pull only when both the document and the server still exist, the
re-pull additionally guarded by the attachment check. -/
def retry_dispatch (req : PullRequest) (editor : Editor) : TaskEffects :=
  match editor.document req.document_id, editor.language_server_by_id req.server_id with
  | some doc, some language_server =>
    { marks := 1
      logged := false
      editor := editor
      retry_delay_ms := some 500
      repull_invoked := doc.supports_language_server req.server_id
      repull_request :=
        if doc.supports_language_server req.server_id then
          pull_diagnostics_for_document doc language_server
        else none }
  | _, _ =>
    { marks := 0
      logged := false
      editor := editor
      retry_delay_ms := some 500
      repull_invoked := false
      repull_request := none }

/-- Embedding of the error branch of the spawned task (src lines 162-190): a
non-rpc error is logged and the task returns; an rpc error has its data parsed
as cancellation data; only a parsed retrigger flag leads to the 500 ms sleep
and the retry dispatch. -/
def err_branch (e : LspError) (req : PullRequest) (editor : Editor) : TaskEffects :=
  match e with
  | .Other =>
    { marks := 0
      logged := true
      editor := editor
      retry_delay_ms := none
      repull_invoked := false
      repull_request := none }
  | .Rpc data =>
    match data.bind parse_cancellation with
    | none =>
      { marks := 0
        logged := false
        editor := editor
        retry_delay_ms := none
        repull_invoked := false
        repull_request := none }
    | some parsed_cancellation_data =>
      if parsed_cancellation_data.retrigger_request then
        retry_dispatch req editor
      else
        { marks := 0
          logged := false
          editor := editor
          retry_delay_ms := none
          repull_invoked := false
          repull_request := none }

/-- Embedding of the spawned async task (src lines 149-192). The editor
argument is the state the dispatched closure observes when it runs on the
owner thread. On success, the closure marks the token done only when the
server still resolves, then handles the response unconditionally; on failure
the err_branch runs. -/
def spawnedTask (outcome : RequestOutcome) (req : PullRequest) (editor : Editor) :
    TaskEffects :=
  match outcome with
  | .Ok result =>
    { marks := if (editor.language_server_by_id req.server_id).isSome then 1 else 0
      logged := false
      editor := handle_pull_diagnostics_response editor result req.provider req.uri
        req.document_id
      retry_delay_ms := none
      repull_invoked := false
      repull_request := none }
  | .Err e => err_branch e req editor

/-- Embedding of the DiagnosticsDidChange hook (src lines 22-29): outside
Insert mode, send Refresh to the diagnostics handler of every view; inside
Insert mode, do nothing. -/
def diagnostics_did_change_hook (editor : Editor) : Editor :=
  if editor.mode != Mode.Insert then
    { editor with
      views :=
        editor.views.map
          (fun view => { view with events := view.events ++ [DiagnosticEvent.Refresh] }) }
  else editor

/-- Embedding of the OnModeSwitch hook (src lines 30-35): set the active flag
of every view to whether the new mode is not Insert. -/
def on_mode_switch_hook (editor : Editor) (new_mode : Mode) : Editor :=
  { editor with
    views :=
      editor.views.map (fun view => { view with active := new_mode != Mode.Insert }) }

/-- The event fed to the debounce handler (helix-view, payload is just the
document id). -/
structure PullDiagnosticsEvent where
  document_id : DocumentId
deriving DecidableEq

/-- Embedding of the DocumentDidChange hook (src lines 38-47): enqueue a
PullDiagnosticsEvent exactly when the document has a server with the feature. -/
def document_did_change_hook (editor : Editor) (doc : Document) :
    Option PullDiagnosticsEvent :=
  if editor.has_language_server_with_feature doc then some { document_id := doc.id }
  else none

/-- Embedding of the DocumentDidOpen hook (src lines 49-58): the doc macro
indexes the editor documents unconditionally, which panics when the id is
absent — modelled as none; otherwise the hook pulls for every attached server
with the feature. -/
def document_did_open_hook (editor : Editor) (document_id : DocumentId) :
    Option (List PullRequest) :=
  match editor.document document_id with
  | none => none
  | some doc =>
    some ((editor.language_servers_with_feature doc).filterMap
      (fun language_server => pull_diagnostics_for_document doc language_server))

/-- Embedding of the LanguageServerInitialized hook (src lines 60-73): the
server lookup is unwrapped unconditionally, which panics when the id is not
registered — modelled as none; otherwise the hook pulls for every open document
that supports this server, provided the server supports the feature. -/
def language_server_initialized_hook (editor : Editor) (server_id : ServerId) :
    Option (List PullRequest) :=
  match editor.language_server_by_id server_id with
  | none => none
  | some language_server =>
    if language_server.supports_pull_diagnostics then
      some ((editor.documents.filter
          (fun doc => doc.supports_language_server server_id)).filterMap
        (fun doc => pull_diagnostics_for_document doc language_server))
    else some []

/-- Embedding of PullDiagnosticsHandler::handle_event (src lines 88-94): every
event yields the deadline now + 125 ms, ignoring both the event payload and the
pending deadline. Time is in milliseconds. -/
def PullDiagnosticsHandler.handle_event (_event : PullDiagnosticsEvent)
    (_timeout : Option Nat) (now : Nat) : Option Nat :=
  some (now + 125)

/-- Embedding of the per-document part of
dispatch_pull_diagnostic_for_open_documents (src lines 105-113): pull for each
attached server that supports the feature and is initialized. -/
def sweep_document (editor : Editor) (document : Document) : List PullRequest :=
  ((editor.language_servers_with_feature document).filter Client.initialized).filterMap
    (fun language_server => pull_diagnostics_for_document document language_server)

/-- Embedding of dispatch_pull_diagnostic_for_open_documents (src lines
101-115): sweep every currently open document. -/
def dispatch_pull_diagnostic_for_open_documents (editor : Editor) : List PullRequest :=
  editor.documents.flatMap (sweep_document editor)

/-- Modelled from the spec: the debounce driver of the event framework
(helix-event AsyncHook loop, not under src/). The state is Idle or Pending with
a deadline; an event in Idle starts the timer through handle_event, an event
arriving in Pending before the deadline restarts it, and when the deadline
elapses without a new event the timer fires finish_debounce once and the state
returns to Idle. Given a finite timed event stream and the initial state, this
returns the times at which finish_debounce fires (a trailing pending deadline
fires after the stream ends). -/
def debounce_sweeps : List (Nat × PullDiagnosticsEvent) → Option Nat → List Nat
  | [], none => []
  | [], some deadline => [deadline]
  | (t, e) :: rest, none =>
      debounce_sweeps rest (PullDiagnosticsHandler.handle_event e none t)
  | (t, e) :: rest, some deadline =>
      if deadline ≤ t then
        deadline :: debounce_sweeps rest (PullDiagnosticsHandler.handle_event e none t)
      else
        debounce_sweeps rest (PullDiagnosticsHandler.handle_event e (some deadline) t)

/-- Each listed event arrives strictly less than gap milliseconds after the
previous time, starting from tprev. -/
def spacedUnderFrom (gap : Nat) : Nat → List (Nat × PullDiagnosticsEvent) → Bool
  | _, [] => true
  | tprev, (t, _) :: rest => decide (t < tprev + gap) && spacedUnderFrom gap t rest

/-- Successive events of the stream are spaced strictly under gap milliseconds
apart. -/
def spacedUnder (gap : Nat) : List (Nat × PullDiagnosticsEvent) → Bool
  | [] => true
  | (t, _) :: rest => spacedUnderFrom gap t rest

/-- The time of the last event of the stream, or tprev for an empty stream. -/
def lastEventTime : Nat → List (Nat × PullDiagnosticsEvent) → Nat
  | tprev, [] => tprev
  | _, (t, _) :: rest => lastEventTime t rest

/-- A concrete diagnostic item. -/
def diag1 : Diagnostic := { message := ("d1") }

/-- A concrete initialized server with the pull-diagnostics capability. -/
def server0 : Client :=
  { id := 0
    diagnostic_provider := some (DiagnosticServerCapabilities.Options none)
    initialized := true }

/-- A concrete document attached to server0, with a uri and an empty token. -/
def doc0 : Document :=
  { id := 0
    uri := some ("file:a")
    previous_diagnostic_id := none
    language_servers := [0] }

/-- A concrete view with an empty event queue. -/
def view0 : View := { events := [], active := true }

/-- A concrete editor holding doc0, server0 and view0, in Normal mode. -/
def editor1 : Editor :=
  { mode := Mode.Normal
    documents := [doc0]
    language_servers := [server0]
    diagnostics := []
    views := [view0] }

/-- The editor1 state switched to Insert mode. -/
def editorInsert : Editor := { editor1 with mode := Mode.Insert }

/-- An editor with no documents, no servers and no views. -/
def emptyEditor : Editor :=
  { mode := Mode.Normal
    documents := []
    language_servers := []
    diagnostics := []
    views := [] }

/-- The request pull_diagnostics_for_document obtains for doc0 and server0. -/
def req0 : PullRequest :=
  { previous_diagnostic_id := none
    uri := ("file:a")
    provider := DiagnosticProvider.Lsp 0 none
    document_id := 0
    server_id := 0 }

/-- A concrete Full report with one item and token r1. -/
def fullReport1 : RelatedFullDocumentDiagnosticReport :=
  { full_document_diagnostic_report := { result_id := some ("r1"), items := [diag1] } }

/-- A concrete Full report result wrapping fullReport1. -/
def fullResult1 : DocumentDiagnosticReportResult :=
  DocumentDiagnosticReportResult.Report (DocumentDiagnosticReport.Full fullReport1)

/-- A concrete Unchanged report with token r2. -/
def unchangedReport2 : RelatedUnchangedDocumentDiagnosticReport :=
  { unchanged_document_diagnostic_report := { result_id := ("r2") } }

/-- A concrete payload for a multi-part report. -/
def partialResult0 : DocumentDiagnosticReportPartialResult :=
  { related_documents := [] }

/-- A concrete Unchanged report result wrapping unchangedReport2. -/
def unchangedResult2 : DocumentDiagnosticReportResult :=
  DocumentDiagnosticReportResult.Report (DocumentDiagnosticReport.Unchanged unchangedReport2)

/-- The editor1 state with the server removed while doc0 stays open. -/
def editorNoServer : Editor := { editor1 with language_servers := [] }

/-- A concrete rpc failure whose cancellation data requests a retrigger. -/
def errRetrigger : LspError :=
  LspError.Rpc (some (JsonData.cancellation { retrigger_request := true }))

/-- A concrete event for the debounce handler. -/
def ev0 : PullDiagnosticsEvent := { document_id := 0 }

/-- Helper: merging into the uri-keyed storage never touches the document
list. -/
theorem handle_lsp_diagnostics_documents (editor : Editor) (provider : DiagnosticProvider)
    (uri : Uri) (items : List Diagnostic) :
    (editor.handle_lsp_diagnostics provider uri items).documents = editor.documents := rfl

/-- Helper: merging into the uri-keyed storage does not change document
lookups. -/
theorem handle_lsp_diagnostics_document (editor : Editor) (provider : DiagnosticProvider)
    (uri : Uri) (items : List Diagnostic) (document_id : DocumentId) :
    (editor.handle_lsp_diagnostics provider uri items).document document_id =
      editor.document document_id := rfl

/-- Helper: writing the version token never touches the uri-keyed storage. -/
theorem set_previous_diagnostic_id_diagnostics (editor : Editor) (document_id : DocumentId)
    (result_id : Option String) :
    (editor.set_previous_diagnostic_id document_id result_id).diagnostics =
      editor.diagnostics := rfl

/-- Helper: find? after updateFirst, when the update preserves the predicate. -/
theorem find?_updateFirst {α : Type} (p : α → Bool) (f : α → α) (l : List α)
    (hpf : ∀ a, p a = true → p (f a) = true) :
    (updateFirst p f l).find? p = (l.find? p).map f := by
  induction l with
  | nil => rfl
  | cons a rest ih =>
    by_cases h : p a = true
    · rw [updateFirst, if_pos h, List.find?_cons_of_pos _ (hpf a h),
        List.find?_cons_of_pos _ h]
      rfl
    · rw [updateFirst, if_neg h, List.find?_cons_of_neg _ h, List.find?_cons_of_neg _ h, ih]

/-- Helper: the document lookup after a version-token write is the map of the
lookup before it. -/
theorem document_set_previous_diagnostic_id (editor : Editor) (document_id : DocumentId)
    (result_id : Option String) :
    (editor.set_previous_diagnostic_id document_id result_id).document document_id =
      (editor.document document_id).map
        (fun doc => { doc with previous_diagnostic_id := result_id }) := by
  have hpf : ∀ doc : Document, (doc.id == document_id) = true →
      (({ doc with previous_diagnostic_id := result_id } : Document).id == document_id) = true :=
    fun doc h => h
  exact find?_updateFirst _ _ editor.documents hpf

/-- Helper: reducing the response handler on a Full report. -/
theorem handle_full_reduction (editor : Editor) (report : RelatedFullDocumentDiagnosticReport)
    (provider : DiagnosticProvider) (uri : Uri) (document_id : DocumentId) :
    handle_pull_diagnostics_response editor
        (DocumentDiagnosticReportResult.Report (DocumentDiagnosticReport.Full report))
        provider uri document_id =
      (if ((editor.handle_lsp_diagnostics provider uri
            report.full_document_diagnostic_report.items).document document_id).isSome then
        (editor.handle_lsp_diagnostics provider uri
            report.full_document_diagnostic_report.items).set_previous_diagnostic_id
          document_id report.full_document_diagnostic_report.result_id
      else
        editor.handle_lsp_diagnostics provider uri
          report.full_document_diagnostic_report.items) := rfl

/-- Helper: reducing the response handler on an Unchanged report. -/
theorem handle_unchanged_reduction (editor : Editor)
    (report : RelatedUnchangedDocumentDiagnosticReport) (provider : DiagnosticProvider)
    (uri : Uri) (document_id : DocumentId) :
    handle_pull_diagnostics_response editor
        (DocumentDiagnosticReportResult.Report (DocumentDiagnosticReport.Unchanged report))
        provider uri document_id =
      (if (editor.document document_id).isSome then
        editor.set_previous_diagnostic_id document_id
          (some report.unchanged_document_diagnostic_report.result_id)
      else editor) := rfl

/-- Helper: a request is only obtained from a server that supports the
pull-diagnostics feature. -/
theorem pull_some_feature (doc : Document) (ls : Client) (r : PullRequest)
    (h : pull_diagnostics_for_document doc ls = some r) :
    ls.supports_pull_diagnostics = true := by
  by_cases hc : ls.diagnostic_provider.isSome = true
  · exact hc
  · exfalso
    simp [pull_diagnostics_for_document, text_document_diagnostic, hc] at h

/-- C1 counterexample: a request is issuable for doc0 and server0, yet when its
outcome is a transport error that is not an rpc error, the task performs zero
mark-work-as-done calls for the token, not exactly one. -/
theorem mark_count_zero_on_transport_error :
    pull_diagnostics_for_document doc0 server0 = some req0 ∧
    (spawnedTask (RequestOutcome.Err LspError.Other) req0 editor1).marks = 0 := by
  exact ⟨by decide, by decide⟩

/-- C1 (amended): the number of mark-work-as-done calls for an issued request
token is: on success, one exactly when the server still resolves at dispatch
time; on failure, one exactly when the failure carries cancellation data with
the retrigger flag set and both the document and the server still exist at the
retry dispatch; zero in every other case. -/
theorem spawned_task_mark_count :
    ∀ (result : DocumentDiagnosticReportResult) (e : LspError) (req : PullRequest)
      (editor : Editor),
      (spawnedTask (RequestOutcome.Ok result) req editor).marks =
        (if (editor.language_server_by_id req.server_id).isSome then 1 else 0) ∧
      (spawnedTask (RequestOutcome.Err e) req editor).marks =
        (if e.retrigger_requested && (editor.document req.document_id).isSome &&
            (editor.language_server_by_id req.server_id).isSome then 1 else 0) := by
  intro result e req editor
  constructor
  · rfl
  · cases e with
    | Other => simp [spawnedTask, err_branch, LspError.retrigger_requested]
    | Rpc data =>
      cases hd : data.bind parse_cancellation with
      | none => simp [spawnedTask, err_branch, LspError.retrigger_requested, hd]
      | some d =>
        cases hr : d.retrigger_request with
        | false => simp [spawnedTask, err_branch, LspError.retrigger_requested, hd, hr]
        | true =>
          simp only [spawnedTask, err_branch, LspError.retrigger_requested, hd, hr,
            Option.map_some, Option.getD_some, if_true, Bool.true_and]
          cases hdoc : editor.document req.document_id with
          | none => simp [retry_dispatch, hdoc]
          | some doc =>
            cases hls : editor.language_server_by_id req.server_id with
            | none => simp [retry_dispatch, hdoc, hls]
            | some ls => simp [retry_dispatch, hdoc, hls, hr]

/-- C6: failure handling never touches the editor state, so the cached version
token survives every error outcome unchanged; and a Partial result leaves the
editor untouched as well, so the token is only ever written when a Full or
Unchanged report is applied. -/
theorem failure_preserves_version_token :
    ∀ (e : LspError) (req : PullRequest) (editor : Editor)
      (p : DocumentDiagnosticReportPartialResult) (provider : DiagnosticProvider)
      (uri : Uri) (document_id : DocumentId),
      (spawnedTask (RequestOutcome.Err e) req editor).editor = editor ∧
      handle_pull_diagnostics_response editor ( DocumentDiagnosticReportResult.Partial p)
        provider uri document_id = editor := by
  intro e req editor p provider uri document_id
  refine ⟨?_, rfl⟩
  cases e with
  | Other => rfl
  | Rpc data =>
    cases hd : data.bind parse_cancellation with
    | none => simp [spawnedTask, err_branch, hd]
    | some d =>
      cases hr : d.retrigger_request with
      | false => simp [spawnedTask, err_branch, hd, hr]
      | true =>
        simp only [spawnedTask, err_branch, hd, hr, if_true]
        cases hdoc : editor.document req.document_id with
        | none => simp [retry_dispatch, hdoc]
        | some doc =>
          cases hls : editor.language_server_by_id req.server_id with
          | none => simp [retry_dispatch, hdoc, hls]
          | some ls => simp [retry_dispatch, hdoc, hls]

/-- C8: the DiagnosticsDidChange hook forwards a Refresh to the diagnostics
handler of every view exactly when the editor is not in Insert mode — it is a
no-op in Insert mode, and once the mode field holds any other mode the same
event appends a Refresh to every view again. -/
theorem mode_gating_refresh :
    ∀ (editor : Editor),
      (editor.mode = Mode.Insert → diagnostics_did_change_hook editor = editor) ∧
      (editor.mode ≠ Mode.Insert →
        (diagnostics_did_change_hook editor).views =
          editor.views.map
            (fun view => { view with events := view.events ++ [DiagnosticEvent.Refresh] })) ∧
      (∀ m : Mode, m ≠ Mode.Insert →
        (diagnostics_did_change_hook { editor with mode := m }).views =
          editor.views.map
            (fun view => { view with events := view.events ++ [DiagnosticEvent.Refresh] })) := by
  intro editor
  refine ⟨?_, ?_, ?_⟩
  · intro h
    simp [diagnostics_did_change_hook, h]
  · intro h
    simp [diagnostics_did_change_hook, bne_iff_ne, h]
  · intro m h
    simp [diagnostics_did_change_hook, bne_iff_ne, h]

/-- C8 witness: in the concrete Insert-mode editor the event is a no-op, and in
the concrete Normal-mode editor every view receives a Refresh. -/
theorem mode_gating_refresh_witness :
    diagnostics_did_change_hook editorInsert = editorInsert ∧
    (diagnostics_did_change_hook editor1).views =
      editor1.views.map
        (fun view => { view with events := view.events ++ [DiagnosticEvent.Refresh] }) := by
  exact ⟨(mode_gating_refresh editorInsert).1 rfl, (mode_gating_refresh editor1).2.1 (by decide)⟩

/-- C9 counterexample: delivering the server-initialized event for a server id
that is no longer registered makes the hook panic (the unconditional unwrap of
the lookup, modelled as none). -/
theorem server_initialized_hook_panics_on_missing_server :
    language_server_initialized_hook emptyEditor 0 = none := rfl

/-- C9 (amended): the server-initialized hook completes without panicking
exactly when the server id still resolves, and the document-opened hook
completes without panicking exactly when the document id still resolves; the
remaining hooks and every branch of the spawned request task are total
functions of the editor state and cannot panic. -/
theorem hook_totality_characterization :
    ∀ (editor : Editor) (server_id : ServerId) (document_id : DocumentId),
      ((language_server_initialized_hook editor server_id).isSome ↔
        (editor.language_server_by_id server_id).isSome) ∧
      ((document_did_open_hook editor document_id).isSome ↔
        (editor.document document_id).isSome) := by
  intro editor server_id document_id
  constructor
  · cases hls : editor.language_server_by_id server_id with
    | none => simp [language_server_initialized_hook, hls]
    | some ls =>
      cases hf : ls.supports_pull_diagnostics <;>
        simp [language_server_initialized_hook, hls, hf]
  · cases hdoc : editor.document document_id with
    | none => simp [document_did_open_hook, hdoc]
    | some doc => simp [document_did_open_hook, hdoc]

/-- C2 counterexample: with both the document and the server gone by dispatch
time, a successful Full response is not dropped — its items are still merged
into the uri-keyed storage. -/
theorem stale_full_report_still_merges :
    emptyEditor.document req0.document_id = none ∧
    emptyEditor.language_server_by_id req0.server_id = none ∧
    (spawnedTask (RequestOutcome.Ok fullResult1) req0 emptyEditor).editor.diagnostics =
      [(("file:a"), DiagnosticProvider.Lsp 0 none, [diag1])] := by
  exact ⟨rfl, rfl, by decide⟩

/-- C2 (amended): when the document no longer exists at dispatch time, the
version token is not written, nothing is logged, and Unchanged and Partial
responses change nothing; but a Full report is still merged into the uri-keyed
diagnostic storage — the re-lookups guard only the mark-work-done call and the
token write, not the merge — and when the server no longer exists only the
mark-work-done call is skipped. -/
theorem stale_response_effects :
    ∀ (editor : Editor) (req : PullRequest) (result : DocumentDiagnosticReportResult),
      (editor.document req.document_id = none →
        (spawnedTask (RequestOutcome.Ok result) req editor).logged = false ∧
        (spawnedTask (RequestOutcome.Ok result) req editor).editor.documents =
          editor.documents ∧
        (∀ report, result =
            DocumentDiagnosticReportResult.Report (DocumentDiagnosticReport.Unchanged report) →
          (spawnedTask (RequestOutcome.Ok result) req editor).editor = editor) ∧
        (∀ p, result = DocumentDiagnosticReportResult.Partial p →
          (spawnedTask (RequestOutcome.Ok result) req editor).editor = editor) ∧
        (∀ report, result =
            DocumentDiagnosticReportResult.Report (DocumentDiagnosticReport.Full report) →
          (spawnedTask (RequestOutcome.Ok result) req editor).editor =
            editor.handle_lsp_diagnostics req.provider req.uri
              report.full_document_diagnostic_report.items)) ∧
      (editor.language_server_by_id req.server_id = none →
        (spawnedTask (RequestOutcome.Ok result) req editor).marks = 0 ∧
        (spawnedTask (RequestOutcome.Ok result) req editor).logged = false ∧
        (spawnedTask (RequestOutcome.Ok result) req editor).editor =
          handle_pull_diagnostics_response editor result req.provider req.uri
            req.document_id ∧
        (∀ report, result =
            DocumentDiagnosticReportResult.Report (DocumentDiagnosticReport.Unchanged report) →
          (editor.document req.document_id).isSome = true →
          (spawnedTask (RequestOutcome.Ok result) req editor).editor =
            { editor with
              documents :=
                updateFirst (fun doc => doc.id == req.document_id)
                  (fun doc => { doc with
                    previous_diagnostic_id :=
                      some report.unchanged_document_diagnostic_report.result_id })
                  editor.documents })) := by
  intro editor req result
  have htask : (spawnedTask (RequestOutcome.Ok result) req editor).editor =
      handle_pull_diagnostics_response editor result req.provider req.uri req.document_id := rfl
  constructor
  · intro hdoc
    refine ⟨rfl, ?_, ?_, ?_, ?_⟩
    · rw [htask]
      cases result with
      | Report report =>
        cases report with
        | Full fr =>
          rw [handle_full_reduction, handle_lsp_diagnostics_document, hdoc]
          simp [handle_lsp_diagnostics_documents]
        | Unchanged ur =>
          rw [handle_unchanged_reduction, hdoc]
          simp
      | Partial p => rfl
    · intro report hres
      subst hres
      rw [htask, handle_unchanged_reduction, hdoc]
      simp
    · intro p hres
      subst hres
      rw [htask]
      rfl
    · intro report hres
      subst hres
      rw [htask, handle_full_reduction, handle_lsp_diagnostics_document, hdoc]
      simp
  · intro hls
    refine ⟨by simp [spawnedTask, hls], rfl, htask, ?_⟩
    intro report hres hdocsome
    subst hres
    rw [htask, handle_unchanged_reduction, if_pos hdocsome]
    rfl

/-- C2 witness: with document and server both gone, nothing is logged and the
final editor is exactly the uri-keyed merge of the Full report items; with only
the server gone and doc0 still open, zero marks occur and the Unchanged report
still writes the token of doc0. -/
theorem stale_response_effects_witness :
    (spawnedTask (RequestOutcome.Ok fullResult1) req0 emptyEditor).logged = false ∧
    (spawnedTask (RequestOutcome.Ok fullResult1) req0 emptyEditor).editor =
      emptyEditor.handle_lsp_diagnostics req0.provider req0.uri [diag1] ∧
    (spawnedTask (RequestOutcome.Ok unchangedResult2) req0 editorNoServer).marks = 0 ∧
    (spawnedTask (RequestOutcome.Ok unchangedResult2) req0 editorNoServer).editor =
      { editorNoServer with
        documents :=
          updateFirst (fun doc => doc.id == 0)
            (fun doc => { doc with previous_diagnostic_id := some ("r2") })
            editorNoServer.documents } := by
  have h1 := (stale_response_effects emptyEditor req0 fullResult1).1 rfl
  have h2 := (stale_response_effects editorNoServer req0 unchangedResult2).2 rfl
  exact ⟨h1.1, h1.2.2.2.2 fullReport1 rfl, h2.1,
    h2.2.2.2 unchangedReport2 rfl (by decide)⟩

/-- C3: for every failed request, a re-pull is only ever attempted when the
failure carries cancellation data with the retrigger flag set, and then exactly
one recursive pull call happens, after a 500 ms sleep, exactly when the
document still exists, the server is still registered and the document still
supports it; a request is actually issued by that call only when the server
moreover still supports the pull-diagnostics feature. With the flag unset (or
no cancellation data at all) there is no delay and no re-pull. -/
theorem cancellation_retry_policy :
    ∀ (e : LspError) (req : PullRequest) (editor : Editor),
      (e.retrigger_requested = false →
        (spawnedTask (RequestOutcome.Err e) req editor).retry_delay_ms = none ∧
        (spawnedTask (RequestOutcome.Err e) req editor).repull_invoked = false ∧
        (spawnedTask (RequestOutcome.Err e) req editor).repull_request = none) ∧
      (e.retrigger_requested = true →
        (spawnedTask (RequestOutcome.Err e) req editor).retry_delay_ms = some 500 ∧
        ((spawnedTask (RequestOutcome.Err e) req editor).repull_invoked = true ↔
          ∃ doc, editor.document req.document_id = some doc ∧
            (editor.language_server_by_id req.server_id).isSome = true ∧
            doc.supports_language_server req.server_id = true) ∧
        (∀ r, (spawnedTask (RequestOutcome.Err e) req editor).repull_request = some r →
          ∃ doc ls, editor.document req.document_id = some doc ∧
            editor.language_server_by_id req.server_id = some ls ∧
            doc.supports_language_server req.server_id = true ∧
            ls.supports_pull_diagnostics = true ∧
            pull_diagnostics_for_document doc ls = some r)) := by
  intro e req editor
  cases e with
  | Other =>
    refine ⟨fun _ => ⟨rfl, rfl, rfl⟩, fun h => ?_⟩
    simp [LspError.retrigger_requested] at h
  | Rpc data =>
    cases hd : data.bind parse_cancellation with
    | none =>
      refine ⟨fun _ => ?_, fun h => ?_⟩
      · exact ⟨by simp [spawnedTask, err_branch, hd], by simp [spawnedTask, err_branch, hd],
          by simp [spawnedTask, err_branch, hd]⟩
      · simp [LspError.retrigger_requested, hd] at h
    | some d =>
      cases hr : d.retrigger_request with
      | false =>
        refine ⟨fun _ => ?_, fun h => ?_⟩
        · exact ⟨by simp [spawnedTask, err_branch, hd, hr],
            by simp [spawnedTask, err_branch, hd, hr],
            by simp [spawnedTask, err_branch, hd, hr]⟩
        · simp [LspError.retrigger_requested, hd, hr] at h
      | true =>
        refine ⟨fun h => ?_, fun _ => ?_⟩
        · simp [LspError.retrigger_requested, hd, hr] at h
        · have htask : spawnedTask (RequestOutcome.Err (LspError.Rpc data)) req editor =
              retry_dispatch req editor := by
            simp [spawnedTask, err_branch, hd, hr]
          rw [htask]
          cases hdoc : editor.document req.document_id with
          | none =>
            have hrd : retry_dispatch req editor =
                { marks := 0, logged := false, editor := editor, retry_delay_ms := some 500,
                  repull_invoked := false, repull_request := none } := by
              simp [retry_dispatch, hdoc]
            rw [hrd]
            refine ⟨rfl, ?_, ?_⟩
            · constructor
              · intro hfalse
                simp at hfalse
              · rintro ⟨doc, hdoc2, -, -⟩
                exact Option.noConfusion hdoc2
            · intro r hsome
              simp at hsome
          | some doc =>
            cases hls : editor.language_server_by_id req.server_id with
            | none =>
              have hrd : retry_dispatch req editor =
                  { marks := 0, logged := false, editor := editor, retry_delay_ms := some 500,
                    repull_invoked := false, repull_request := none } := by
                simp [retry_dispatch, hdoc, hls]
              rw [hrd]
              refine ⟨rfl, ?_, ?_⟩
              · constructor
                · intro hfalse
                  simp at hfalse
                · rintro ⟨doc2, -, hsome, -⟩
                  simp at hsome
              · intro r hsome
                simp at hsome
            | some ls =>
              have hrd : retry_dispatch req editor =
                  { marks := 1, logged := false, editor := editor, retry_delay_ms := some 500,
                    repull_invoked := doc.supports_language_server req.server_id,
                    repull_request :=
                      if doc.supports_language_server req.server_id then
                        pull_diagnostics_for_document doc ls
                      else none } := by
                simp [retry_dispatch, hdoc, hls]
              rw [hrd]
              refine ⟨rfl, ?_, ?_⟩
              · constructor
                · intro hsup
                  exact ⟨doc, rfl, rfl, hsup⟩
                · rintro ⟨doc2, hdoc2, -, hsup⟩
                  injection hdoc2 with hdd
                  rw [hdd]
                  exact hsup
              · intro r hsome
                have hsome2 : (if doc.supports_language_server req.server_id = true then
                    pull_diagnostics_for_document doc ls else none) = some r := hsome
                by_cases hsup : doc.supports_language_server req.server_id = true
                · rw [if_pos hsup] at hsome2
                  exact ⟨doc, ls, rfl, rfl, hsup, pull_some_feature doc ls r hsome2, hsome2⟩
                · rw [if_neg hsup] at hsome2
                  exact Option.noConfusion hsome2

/-- C3 witness: in the concrete retrigger scenario the retry sleeps 500 ms and
re-pulls, while a plain transport error schedules no re-pull. -/
theorem cancellation_retry_policy_witness :
    (spawnedTask (RequestOutcome.Err errRetrigger) req0 editor1).retry_delay_ms = some 500 ∧
    (spawnedTask (RequestOutcome.Err LspError.Other) req0 editor1).repull_request = none := by
  exact ⟨((cancellation_retry_policy errRetrigger req0 editor1).2 (by decide)).1,
    ((cancellation_retry_policy LspError.Other req0 editor1).1 (by decide)).2.2⟩

/-- C4: applying a Full report for a still-open document stores the report
items as the diagnostics for the request provider and sets the cached version
token of the document to the result id of the report, including to none when
the report carries no result id. -/
theorem full_report_applies :
    ∀ (editor : Editor) (report : RelatedFullDocumentDiagnosticReport)
      (provider : DiagnosticProvider) (uri : Uri) (document_id : DocumentId),
      (editor.document document_id).isSome = true →
      (handle_pull_diagnostics_response editor
          (DocumentDiagnosticReportResult.Report (DocumentDiagnosticReport.Full report))
          provider uri document_id).diagnosticsFor uri provider =
        some report.full_document_diagnostic_report.items ∧
      ((handle_pull_diagnostics_response editor
          (DocumentDiagnosticReportResult.Report (DocumentDiagnosticReport.Full report))
          provider uri document_id).document document_id).map
          Document.previous_diagnostic_id =
        some report.full_document_diagnostic_report.result_id := by
  intro editor report provider uri document_id hdoc
  rw [handle_full_reduction, handle_lsp_diagnostics_document]
  rw [if_pos hdoc]
  constructor
  · have hmerge : (editor.handle_lsp_diagnostics provider uri
        report.full_document_diagnostic_report.items).diagnostics =
        (uri, provider, report.full_document_diagnostic_report.items) ::
          editor.diagnostics.filter
            (fun entry => !(entry.1 == uri && entry.2.1 == provider)) := rfl
    unfold Editor.diagnosticsFor
    rw [set_previous_diagnostic_id_diagnostics, hmerge, List.find?_cons_of_pos]
    · rfl
    · simp
  · rw [document_set_previous_diagnostic_id, handle_lsp_diagnostics_document]
    obtain ⟨doc, hdoc2⟩ := Option.isSome_iff_exists.mp hdoc
    rw [hdoc2]
    rfl

/-- C4 witness: the concrete editor with an open document receives the Full
report with one item and token r1 — storage holds the item and the token is
r1. -/
theorem full_report_applies_witness :
    (handle_pull_diagnostics_response editor1
        (DocumentDiagnosticReportResult.Report (DocumentDiagnosticReport.Full fullReport1))
        (DiagnosticProvider.Lsp 0 none) ("file:a") 0).diagnosticsFor ("file:a")
        (DiagnosticProvider.Lsp 0 none) = some [diag1] ∧
    ((handle_pull_diagnostics_response editor1
        (DocumentDiagnosticReportResult.Report (DocumentDiagnosticReport.Full fullReport1))
        (DiagnosticProvider.Lsp 0 none) ("file:a") 0).document 0).map
        Document.previous_diagnostic_id = some (some ("r1")) := by
  exact full_report_applies editor1 fullReport1 (DiagnosticProvider.Lsp 0 none) ("file:a") 0
    (by decide)

/-- C5: applying an Unchanged report for a still-open document changes nothing
but the cached version token of that document, which becomes the result id of
the report — the uri-keyed storage, the mode, the views, the servers, every
other document and every other field of the document are untouched; and a
Partial report changes nothing at all. -/
theorem unchanged_report_updates_only_token :
    ∀ (editor : Editor) (report : RelatedUnchangedDocumentDiagnosticReport)
      (provider : DiagnosticProvider) (uri : Uri) (document_id : DocumentId)
      (p : DocumentDiagnosticReportPartialResult),
      ((editor.document document_id).isSome = true →
        handle_pull_diagnostics_response editor
            (DocumentDiagnosticReportResult.Report (DocumentDiagnosticReport.Unchanged report))
            provider uri document_id =
          { editor with
            documents :=
              updateFirst (fun doc => doc.id == document_id)
                (fun doc => { doc with
                  previous_diagnostic_id :=
                    some report.unchanged_document_diagnostic_report.result_id })
                editor.documents }) ∧
      handle_pull_diagnostics_response editor
        ( DocumentDiagnosticReportResult.Partial p) provider uri document_id = editor := by
  intro editor report provider uri document_id p
  refine ⟨fun hdoc => ?_, rfl⟩
  rw [handle_unchanged_reduction, if_pos hdoc]
  rfl

/-- C5 witness: the concrete editor with stored state receives the Unchanged
report with token r2 — the result is exactly the token update of doc0. -/
theorem unchanged_report_updates_only_token_witness :
    handle_pull_diagnostics_response editor1
        (DocumentDiagnosticReportResult.Report
          (DocumentDiagnosticReport.Unchanged unchangedReport2))
        (DiagnosticProvider.Lsp 0 none) ("file:a") 0 =
      { editor1 with
        documents :=
          updateFirst (fun doc => doc.id == 0)
            (fun doc => { doc with previous_diagnostic_id := some ("r2") })
            editor1.documents } := by
  exact (unchanged_report_updates_only_token editor1 unchangedReport2
    (DiagnosticProvider.Lsp 0 none) ("file:a") 0 partialResult0).1 (by decide)

/-- Helper: while every next event arrives strictly before the pending
deadline, the debounce driver keeps postponing and ends with a single firing,
125 ms after the last event. -/
theorem debounce_sweeps_pending :
    ∀ (rest : List (Nat × PullDiagnosticsEvent)) (tprev : Nat),
      spacedUnderFrom 125 tprev rest = true →
      debounce_sweeps rest (some (tprev + 125)) = [lastEventTime tprev rest + 125] := by
  intro rest
  induction rest with
  | nil =>
    intro tprev _
    rfl
  | cons head rest ih =>
    intro tprev h
    obtain ⟨t, e⟩ := head
    simp only [spacedUnderFrom, Bool.and_eq_true, decide_eq_true_eq] at h
    obtain ⟨h1, h2⟩ := h
    have hnot : ¬ (tprev + 125 ≤ t) := by omega
    rw [debounce_sweeps, if_neg hnot]
    rw [show lastEventTime tprev ((t, e) :: rest) = lastEventTime t rest from rfl]
    exact ih t h2

/-- C7: the debounce handler coalesces — any nonempty stream of events spaced
strictly under the 125 ms quiet period yields exactly one firing, two events
separated by more than the quiet period yield exactly two, and every firing
sweeps all open documents, issuing the pull obtained for each attached server
that supports the feature and is initialized. -/
theorem debounce_coalescing_and_sweep :
    (∀ evs : List (Nat × PullDiagnosticsEvent), evs ≠ [] → spacedUnder 125 evs = true →
      (debounce_sweeps evs none).length = 1) ∧
    (∀ (t1 t2 : Nat) (e1 e2 : PullDiagnosticsEvent), t1 + 125 < t2 →
      (debounce_sweeps [(t1, e1), (t2, e2)] none).length = 2) ∧
    (∀ (editor : Editor) (doc : Document) (ls : Client) (req : PullRequest),
      doc ∈ editor.documents → ls ∈ editor.language_servers_with_feature doc →
      ls.initialized = true → pull_diagnostics_for_document doc ls = some req →
      req ∈ dispatch_pull_diagnostic_for_open_documents editor) := by
  refine ⟨?_, ?_, ?_⟩
  · intro evs hne hsp
    match evs with
    | (t0, e0) :: rest =>
      rw [show spacedUnder 125 ((t0, e0) :: rest) = spacedUnderFrom 125 t0 rest from rfl] at hsp
      rw [show debounce_sweeps ((t0, e0) :: rest) none =
        debounce_sweeps rest (some (t0 + 125)) from rfl]
      rw [debounce_sweeps_pending rest t0 hsp]
      rfl
  · intro t1 t2 e1 e2 h
    have hle : t1 + 125 ≤ t2 := Nat.le_of_lt h
    rw [show debounce_sweeps [(t1, e1), (t2, e2)] none =
      debounce_sweeps [(t2, e2)] (some (t1 + 125)) from rfl]
    rw [debounce_sweeps, if_pos hle]
    rfl
  · intro editor doc ls req hdoc hls hinit hpull
    unfold dispatch_pull_diagnostic_for_open_documents
    rw [List.mem_flatMap]
    refine ⟨doc, hdoc, ?_⟩
    unfold sweep_document
    rw [List.mem_filterMap]
    exact ⟨ls, List.mem_filter.mpr ⟨hls, hinit⟩, hpull⟩

/-- C7 witness: three concrete events 100 ms apart fire once, two events 326 ms
apart fire twice, and the concrete request of doc0 and server0 is issued by the
sweep over editor1. -/
theorem debounce_coalescing_and_sweep_witness :
    (debounce_sweeps [(0, ev0), (100, ev0), (200, ev0)] none).length = 1 ∧
    (debounce_sweeps [(0, ev0), (326, ev0)] none).length = 2 ∧
    req0 ∈ dispatch_pull_diagnostic_for_open_documents editor1 := by
  exact ⟨debounce_coalescing_and_sweep.1 [(0, ev0), (100, ev0), (200, ev0)]
      (by decide) (by decide),
    debounce_coalescing_and_sweep.2.1 0 326 ev0 ev0 (by decide),
    debounce_coalescing_and_sweep.2.2 editor1 doc0 server0 req0 (by decide) (by decide)
      (by decide) (by decide)⟩

/-- C10: handle_event returns the deadline now + 125 ms whatever the event
payload and whatever the pending deadline; consequently an uninterrupted
stream of events spaced under 125 ms postpones the single sweep to 125 ms
after the last event of the stream, however long the stream is. -/
theorem handle_event_fixed_deadline :
    (∀ (event : PullDiagnosticsEvent) (timeout : Option Nat) (now : Nat),
      PullDiagnosticsHandler.handle_event event timeout now = some (now + 125)) ∧
    (∀ (t0 : Nat) (e0 : PullDiagnosticsEvent) (rest : List (Nat × PullDiagnosticsEvent)),
      spacedUnderFrom 125 t0 rest = true →
      debounce_sweeps ((t0, e0) :: rest) none = [lastEventTime t0 rest + 125]) := by
  constructor
  · intro event timeout now
    rfl
  · intro t0 e0 rest h
    rw [show debounce_sweeps ((t0, e0) :: rest) none =
      debounce_sweeps rest (some (t0 + 125)) from rfl]
    exact debounce_sweeps_pending rest t0 h

/-- C10 witness: two concrete events 100 ms apart produce the single sweep at
225 ms, 125 ms after the second event. -/
theorem handle_event_fixed_deadline_witness :
    debounce_sweeps [(0, ev0), (100, ev0)] none = [225] := by
  exact handle_event_fixed_deadline.2 0 ev0 [(100, ev0)] (by decide)

end HelixPullDiagnostics
